import Mathlib

/-
Verification of the flood-risk monitoring application (app.py).

The Python source is shallowly embedded below.  Python floats are modelled as
exact rationals (ℚ); absent values (Python `None`) as `Option`; exceptions as
explicit `raised` / `Except` results.  Each definition mirrors one function or
global of `app.py`.
-/

namespace FloodRisk

/-- Embedding of `risk_from_median(current, median)` (app.py lines 87-95).
`None` inputs are `Option.none`; the float comparisons are exact over ℚ. -/
def risk_from_median (current median : Option ℚ) : String :=
  match current, median with
  | some c, some m =>
    if c ≤ m + 0.5 then "low"
    else if c ≤ m + 1.5 then "medium"
    else "high"
  | _, _ => "unknown"

/-- C1: the risk classifier is total and deterministic (it is a Lean function,
hence single-valued), returns one of the four labels for every input, yields
`"unknown"` whenever either input is absent, and satisfies the exact boundary
contract at `median + 0.5`, `median + 0.500001`, `median + 1.5`,
`median + 1.500001`. -/
theorem risk_from_median_contract :
    (∀ c m : Option ℚ,
      risk_from_median c m = "unknown" ∨ risk_from_median c m = "low" ∨
      risk_from_median c m = "medium" ∨ risk_from_median c m = "high") ∧
    (∀ x : Option ℚ,
      risk_from_median none x = "unknown" ∧ risk_from_median x none = "unknown") ∧
    (∀ m : ℚ,
      risk_from_median (some (m + 0.5)) (some m) = "low" ∧
      risk_from_median (some (m + 0.500001)) (some m) = "medium" ∧
      risk_from_median (some (m + 1.5)) (some m) = "medium" ∧
      risk_from_median (some (m + 1.500001)) (some m) = "high") := by
  refine ⟨?_, ?_, ?_⟩
  · intro c m
    match c, m with
    | none, _ => left; rfl
    | some c, none => left; rfl
    | some c, some m =>
      simp only [risk_from_median]
      split
      · right; left; rfl
      · split
        · right; right; left; rfl
        · right; right; right; rfl
  · intro x
    refine ⟨rfl, ?_⟩
    match x with
    | none => rfl
    | some c => rfl
  · intro m
    refine ⟨?_, ?_, ?_, ?_⟩
    · simp only [risk_from_median]
      rw [if_pos (by norm_num)]
    · simp only [risk_from_median]
      rw [if_neg (by norm_num), if_pos (by norm_num)]
    · simp only [risk_from_median]
      rw [if_neg (by norm_num), if_pos (by norm_num)]
    · simp only [risk_from_median]
      rw [if_neg (by norm_num), if_neg (by norm_num)]

/-- Embedding of one entry of the `STATIONS` configuration list (app.py lines 10-17). -/
structure StationCfg where
  site : String
  name : String
  lat : ℚ
  lon : ℚ
  city : String
deriving DecidableEq, Repr

/-- Embedding of the `STATIONS` global (app.py lines 10-17). -/
def STATIONS : List StationCfg :=
  [⟨"01103500", "Charles River at Dover", 42.256209, -71.260055, "Dover"⟩,
   ⟨"01104500", "Charles River at Waltham", 42.372319, -71.233667, "Waltham"⟩,
   ⟨"01104705", "Charles River at First St (Cambridge)", 42.362222, -71.078611, "Cambridge"⟩,
   ⟨"01104710", "Charles River @ Museum of Science (Boston)", 42.365931, -71.070051, "Boston"⟩,
   ⟨"01104715", "Charles River at New Charles River Dam (Boston)", 42.368889, -71.061667,
     "Boston"⟩]

/-- Embedding of one entry of the `VENUES` configuration list (app.py lines 20-23). -/
structure VenueCfg where
  id : String
  name : String
  lat : ℚ
  lon : ℚ
  address : String
deriving DecidableEq, Repr

/-- Embedding of the `VENUES` global (app.py lines 20-23). -/
def VENUES : List VenueCfg :=
  [⟨"cbi", "Community Boating, Inc. (CBI)", 42.3599, -71.0731,
     "21 David G Mugar Way, Boston, MA"⟩,
   ⟨"mit_sailing", "MIT Sailing Pavilion", 42.3573, -71.0953,
     "134 Memorial Dr, Cambridge, MA"⟩]

/-- One subscriber record, the Python dict built at app.py line 136; both fields
come from `data.get`, so either may be `None`. -/
structure Person where
  name : Option String
  email : Option String
deriving DecidableEq, Repr

/-- State of the `SUBSCRIPTIONS` global: venue id keys mapped to subscriber lists. -/
abbrev Registry := List (String × List Person)

/-- Embedding of the `SUBSCRIPTIONS` initializer (app.py line 26). -/
def SUBSCRIPTIONS_init : Registry := VENUES.map (fun v => (v.id, []))

/-- Body of a POST /api/subscribe request, the payload of `request.json or ` the
empty dict; a request with no JSON body or missing keys has `none` fields. -/
structure SubscribeReq where
  venue_id : Option String
  name : Option String
  email : Option String
deriving DecidableEq, Repr

/-- Outcome of `api_subscribe`: an error response with an HTTP status code, or
the success JSON carrying the venue id. -/
inductive SubscribeResult where
  | err (code : Nat) (msg : String)
  | ok (venue : String)
deriving DecidableEq, Repr

/-- Python falsiness of the optional strings tested by `not vid` and
`not person["email"]` at app.py line 137: `None` and `""` are falsy. -/
def falsy : Option String → Bool
  | none => true
  | some s => s == ""

/-- Membership test `vid in SUBSCRIPTIONS` (app.py line 139). -/
def hasKey : Registry → String → Bool
  | [], _ => false
  | kv :: rest, k => kv.1 == k || hasKey rest k

/-- Mutation `SUBSCRIPTIONS[vid].append(person)` (app.py line 141), modelled as
replacing the list stored under the key. -/
def appendSub : Registry → String → Person → Registry
  | [], _, _ => []
  | kv :: rest, k, p =>
    (if kv.1 == k then (kv.1, kv.2 ++ [p]) else kv) :: appendSub rest k p

/-- Lookup `SUBSCRIPTIONS.get(vid, [])` (app.py line 170); also the list read by
`SUBSCRIPTIONS[vid]` when the key is present. -/
def lookupSubs : Registry → String → List Person
  | [], _ => []
  | kv :: rest, k => if kv.1 == k then kv.2 else lookupSubs rest k

/-- Embedding of `api_subscribe` (app.py lines 132-142): returns the HTTP
response together with the registry state after the call. -/
def api_subscribe (st : Registry) (data : SubscribeReq) : SubscribeResult × Registry :=
  let vid := data.venue_id
  let person : Person := { name := data.name, email := data.email }
  if falsy vid || falsy person.email then
    (.err 400 "venue_id and email required", st)
  else
    let v := vid.getD ""
    if hasKey st v then
      (.ok v, appendSub st v person)
    else
      (.err 404 "unknown venue", st)

theorem appendSub_keys (st : Registry) (k : String) (p : Person) :
    (appendSub st k p).map Prod.fst = st.map Prod.fst := by
  induction st with
  | nil => rfl
  | cons kv rest ih =>
    by_cases h : (kv.1 == k) = true <;> simp [appendSub, h, ih]

theorem subscribe_keys (st : Registry) (d : SubscribeReq) :
    ((api_subscribe st d).2).map Prod.fst = st.map Prod.fst := by
  simp only [api_subscribe]
  split
  · rfl
  · split
    · exact appendSub_keys ..
    · rfl

theorem foldl_subscribe_keys (reqs : List SubscribeReq) (st : Registry) :
    (reqs.foldl (fun s d => (api_subscribe s d).2) st).map Prod.fst = st.map Prod.fst := by
  induction reqs generalizing st with
  | nil => rfl
  | cons d rest ih =>
    rw [List.foldl_cons]
    exact (ih _).trans (subscribe_keys st d)

/-- C9: the registry's key set is initialized to exactly the configured venue
ids and no sequence of subscribe operations ever adds or removes a key. -/
theorem subscriptions_keyset_invariant :
    SUBSCRIPTIONS_init.map Prod.fst = VENUES.map VenueCfg.id ∧
    ∀ reqs : List SubscribeReq,
      (reqs.foldl (fun s d => (api_subscribe s d).2) SUBSCRIPTIONS_init).map Prod.fst
        = VENUES.map VenueCfg.id := by
  constructor
  · simp [SUBSCRIPTIONS_init, List.map_map, Function.comp]
  · intro reqs
    rw [foldl_subscribe_keys]
    simp [SUBSCRIPTIONS_init, List.map_map, Function.comp]

/-- C10: a failing subscribe request (any error response) leaves the registry
state completely unchanged. -/
theorem subscribe_error_leaves_state (st : Registry) (d : SubscribeReq) (code : Nat)
    (msg : String) (h : (api_subscribe st d).1 = .err code msg) :
    (api_subscribe st d).2 = st := by
  revert h
  simp only [api_subscribe]
  split
  · intro _; rfl
  · split
    · intro h; simp at h
    · intro _; rfl

/-- Witness for C10: the all-absent request fails with a 400 and the state is
unchanged. -/
theorem subscribe_error_leaves_state_witness :
    (api_subscribe SUBSCRIPTIONS_init ⟨none, none, none⟩).1
      = .err 400 "venue_id and email required" ∧
    (api_subscribe SUBSCRIPTIONS_init ⟨none, none, none⟩).2 = SUBSCRIPTIONS_init :=
  ⟨rfl, subscribe_error_leaves_state SUBSCRIPTIONS_init ⟨none, none, none⟩ 400
    "venue_id and email required" rfl⟩

theorem hasKey_appendSub (st : Registry) (k k' : String) (p : Person) :
    hasKey (appendSub st k p) k' = hasKey st k' := by
  induction st with
  | nil => rfl
  | cons kv rest ih =>
    by_cases h : (kv.1 == k) = true <;> simp [appendSub, hasKey, h, ih]

theorem lookupSubs_appendSub_self (st : Registry) (k : String) (p : Person)
    (h : hasKey st k = true) :
    lookupSubs (appendSub st k p) k = lookupSubs st k ++ [p] := by
  induction st with
  | nil => simp [hasKey] at h
  | cons kv rest ih =>
    by_cases hk : (kv.1 == k) = true
    · simp [appendSub, lookupSubs, hk]
    · have h' : hasKey rest k = true := by
        simpa [hasKey, hk] using h
      simp [appendSub, lookupSubs, hk, ih h']

theorem lookupSubs_appendSub_ne (st : Registry) (k k' : String) (p : Person) (h : k' ≠ k) :
    lookupSubs (appendSub st k p) k' = lookupSubs st k' := by
  induction st with
  | nil => rfl
  | cons kv rest ih =>
    by_cases hk : (kv.1 == k) = true
    · have hkk : kv.1 = k := by simpa using hk
      have hne : (kv.1 == k') = false := by
        simp [hkk]
        exact fun hx => h hx.symm
      simp [appendSub, lookupSubs, hk, hne, ih]
    · by_cases hk' : (kv.1 == k') = true
      · simp [appendSub, lookupSubs, hk, hk']
      · simp [appendSub, lookupSubs, hk, hk', ih]

/-- Counterexample to C3: the request with a non-empty email and the empty
venue id `""` (not among the configured venues) is answered with the 400
client error, not the 404 not-found error the claim requires. -/
theorem subscribe_empty_venue_counterexample :
    falsy (some "bob@example.com") = false ∧
    ("" ∉ VENUES.map VenueCfg.id) ∧
    (api_subscribe SUBSCRIPTIONS_init ⟨some "", some "Bob", some "bob@example.com"⟩).1
      = .err 400 "venue_id and email required" ∧
    (api_subscribe SUBSCRIPTIONS_init ⟨some "", some "Bob", some "bob@example.com"⟩).1
      ≠ .err 404 "unknown venue" := by
  refine ⟨rfl, by decide, rfl, by decide⟩

/-- C3 (amended): an absent or empty venue id or email yields the 400 client
error; a non-empty venue id that is not a registry key (with a non-empty email)
yields the 404 not-found error; with a non-empty email and a registered venue
id the call succeeds, returns the venue id, appends exactly one subscriber
record to that venue's list (all other lists unchanged), and repeating the
identical request yields two list entries. -/
theorem api_subscribe_contract : ∀ (st : Registry) (d : SubscribeReq),
    ((falsy d.venue_id || falsy d.email) = true →
      api_subscribe st d = (.err 400 "venue_id and email required", st)) ∧
    (∀ v, d.venue_id = some v → falsy d.email = false → v ≠ "" → hasKey st v = false →
      api_subscribe st d = (.err 404 "unknown venue", st)) ∧
    (∀ v, d.venue_id = some v → falsy d.email = false → v ≠ "" → hasKey st v = true →
      (api_subscribe st d).1 = .ok v ∧
      lookupSubs (api_subscribe st d).2 v
        = lookupSubs st v ++ [⟨d.name, d.email⟩] ∧
      (∀ k, k ≠ v → lookupSubs (api_subscribe st d).2 k = lookupSubs st k) ∧
      lookupSubs (api_subscribe (api_subscribe st d).2 d).2 v
        = lookupSubs st v ++ [⟨d.name, d.email⟩, ⟨d.name, d.email⟩]) := by
  intro st d
  refine ⟨?_, ?_, ?_⟩
  · intro h
    simp only [api_subscribe, h, if_true]
  · intro v hv he hne hk
    have hfv : falsy (some v) = false := by simpa [falsy] using hne
    simp only [api_subscribe, hv, hfv, he, Bool.or_self, Bool.false_eq_true, if_false,
      Option.getD_some, hk]
  · intro v hv he hne hk
    have hfv : falsy (some v) = false := by simpa [falsy] using hne
    have hstep : api_subscribe st d
        = (.ok v, appendSub st v ⟨d.name, d.email⟩) := by
      simp only [api_subscribe, hv, hfv, he, Bool.or_self, Bool.false_eq_true, if_false,
        Option.getD_some, hk, if_true]
    have hk2 : hasKey (appendSub st v ⟨d.name, d.email⟩) v = true := by
      rw [hasKey_appendSub]; exact hk
    have hstep2 : api_subscribe (appendSub st v ⟨d.name, d.email⟩) d
        = (.ok v, appendSub (appendSub st v ⟨d.name, d.email⟩) v ⟨d.name, d.email⟩) := by
      simp only [api_subscribe, hv, hfv, he, Bool.or_self, Bool.false_eq_true, if_false,
        Option.getD_some, hk2, if_true]
    refine ⟨by rw [hstep], ?_, ?_, ?_⟩
    · rw [hstep]
      exact lookupSubs_appendSub_self st v ⟨d.name, d.email⟩ hk
    · intro k hkne
      rw [hstep]
      exact lookupSubs_appendSub_ne st v k ⟨d.name, d.email⟩ hkne
    · rw [hstep, hstep2]
      rw [lookupSubs_appendSub_self _ v ⟨d.name, d.email⟩ hk2,
        lookupSubs_appendSub_self st v ⟨d.name, d.email⟩ hk]
      simp

/-- Witness for the amended C3: subscribing twice to the configured venue
`"cbi"` with a non-empty email succeeds and yields two identical entries. -/
theorem api_subscribe_contract_witness :
    (falsy (some "bob@example.com") = false ∧ ("cbi" : String) ≠ "" ∧
      hasKey SUBSCRIPTIONS_init "cbi" = true) ∧
    ((api_subscribe SUBSCRIPTIONS_init ⟨some "cbi", some "Bob", some "bob@example.com"⟩).1
        = .ok "cbi" ∧
      lookupSubs
        (api_subscribe SUBSCRIPTIONS_init
          ⟨some "cbi", some "Bob", some "bob@example.com"⟩).2 "cbi"
        = lookupSubs SUBSCRIPTIONS_init "cbi" ++ [⟨some "Bob", some "bob@example.com"⟩] ∧
      (∀ k, k ≠ "cbi" →
        lookupSubs
          (api_subscribe SUBSCRIPTIONS_init
            ⟨some "cbi", some "Bob", some "bob@example.com"⟩).2 k
          = lookupSubs SUBSCRIPTIONS_init k) ∧
      lookupSubs
        (api_subscribe
          (api_subscribe SUBSCRIPTIONS_init
            ⟨some "cbi", some "Bob", some "bob@example.com"⟩).2
          ⟨some "cbi", some "Bob", some "bob@example.com"⟩).2 "cbi"
        = lookupSubs SUBSCRIPTIONS_init "cbi"
            ++ [⟨some "Bob", some "bob@example.com"⟩, ⟨some "Bob", some "bob@example.com"⟩]) :=
  ⟨⟨rfl, by decide, rfl⟩,
    (api_subscribe_contract SUBSCRIPTIONS_init
      ⟨some "cbi", some "Bob", some "bob@example.com"⟩).2.2 "cbi" rfl rfl (by decide) rfl⟩

/-- Classification of the Python value found under an entry's `"value"` key, by
how the two operations applied to it behave: the membership test
`val not in (None, "")` and the conversion `float(val)`.  `vnull` is JSON null
or an absent key, `vempty` the empty string, `vnum q` a number or numeric
string with exact value `q`, `vbad` a non-empty string that `float` rejects. -/
inductive RawVal where
  | vnull
  | vempty
  | vnum (q : ℚ)
  | vbad
deriving DecidableEq, Repr

/-- Python `float(val)`: succeeds exactly on numbers and numeric strings. -/
def pyFloat : RawVal → Option ℚ
  | .vnum q => some q
  | _ => none

/-- Membership test `val not in (None, "")` from app.py line 79 (negated). -/
def isNullOrEmpty : RawVal → Bool
  | .vnull => true
  | .vempty => true
  | _ => false

/-- One element of a series' `"value"` list: a data point with a raw value and
an optional `dateTime` string (absent key modelled as `none`). -/
structure DataPoint where
  value : RawVal
  dateTime : Option String
deriving DecidableEq, Repr

/-- One element of a series' `"values"` list, holding its `"value"` entry list
(an absent key is the same as the empty list under both fetchers). -/
structure ValuesBlock where
  value : List DataPoint
deriving DecidableEq, Repr

/-- One element of a `"variableCode"` list, holding its optional `"value"`. -/
structure VarCode where
  value : Option String
deriving DecidableEq, Repr

/-- One element of the response's `"timeSeries"` list.  `variableCode` is
`none` when the `"variable"`/`"variableCode"` keys are absent (the two fetchers
then substitute different defaults), `some l` when present with list `l`. -/
structure TimeSeries where
  variableCode : Option (List VarCode)
  values : List ValuesBlock
deriving DecidableEq, Repr

/-- Well-shaped decoded body of a USGS response: the `"value"`/`"timeSeries"`
path of the JSON document. -/
structure GageResponse where
  timeSeries : List TimeSeries
deriving DecidableEq, Repr

/-- Outcome of the HTTP round trip: `ok` carries the decoded body; `fail`
covers a transport error or timeout of `requests.get`, a non-2xx status
(`r.raise_for_status()`), and a body that `r.json()` cannot parse — all of
which raise before either fetcher's own code runs. -/
inductive Fetch (α : Type) where
  | ok (a : α)
  | fail
deriving DecidableEq, Repr

/-- Result of a fetcher as seen by its caller: a returned value, or an
exception propagating out of the function. -/
inductive FetchResult (α : Type) where
  | ok (a : α)
  | raised
deriving DecidableEq, Repr

/-- Variable-code extraction of `fetch_current_gage` (app.py lines 43-44):
`series.get("variable", ).get("variableCode", [])` defaulting to the empty
list, then `var[0].get("value") if var else None`. -/
def ivCode : Option (List VarCode) → Option String
  | none => none
  | some [] => none
  | some (c :: _) => c.value

/-- One iteration of the `for series in ...` loop of `fetch_current_gage`
(app.py lines 42-53), transforming the running `(g, t)` pair.  On a matching
series with a non-empty first values block, a parse failure of the last data
point's value sets `g = None` and leaves `t` unchanged (the bare `except`). -/
def stepCurrent (st : Option ℚ × Option String) (series : TimeSeries) :
    Option ℚ × Option String :=
  if ivCode series.variableCode = some "00065" then
    match series.values with
    | [] => st
    | vb :: _ =>
      match vb.value.getLast? with
      | none => st
      | some last =>
        match pyFloat last.value with
        | some q => (some q, last.dateTime)
        | none => (none, st.2)
  else st

/-- Embedding of `fetch_current_gage` (app.py lines 35-54).  A transport-level
failure raises out of the function; a well-shaped body is folded over all its
series starting from `(None, None)`. -/
def fetch_current_gage : Fetch GageResponse → FetchResult (Option ℚ × Option String)
  | .fail => .raised
  | .ok resp => .ok (resp.timeSeries.foldl stepCurrent (none, none))

/-- One retained history row, the dict appended at app.py line 80. -/
structure HistEntry where
  date : String
  value : ℚ
deriving DecidableEq, Repr

/-- Date normalization `entry.get("dateTime", "").split("T")[0]` (app.py
line 78): the prefix of the string before its first `T`. -/
def pyDate (dt : Option String) : String :=
  ⟨(dt.getD "").data.takeWhile (fun c => c ≠ 'T')⟩

/-- Variable-code extraction of `fetch_30d_daily` (app.py line 70):
`series.get("variable", ).get("variableCode", [ ])[0].get("value")` with
default `[ ]` holding one empty dict — so an absent key yields code `None`,
while a present but empty `variableCode` list raises `IndexError`. -/
def dvCode : Option (List VarCode) → Except Unit (Option String)
  | none => .ok none
  | some [] => .error ()
  | some (c :: _) => .ok c.value

/-- Inner entry loop of `fetch_30d_daily` (app.py lines 76-80): skip null or
empty values, append parsed ones; a value that `float` rejects raises, and the
error carries the history accumulated so far. -/
def entriesFold : List HistEntry → List DataPoint → Except (List HistEntry) (List HistEntry)
  | acc, [] => .ok acc
  | acc, e :: rest =>
    if isNullOrEmpty e.value then entriesFold acc rest
    else
      match pyFloat e.value with
      | some q => entriesFold (acc ++ [⟨pyDate e.dateTime, q⟩]) rest
      | none => .error acc

/-- Loop over a series' values blocks (app.py lines 74-75). -/
def blocksFold : List HistEntry → List ValuesBlock → Except (List HistEntry) (List HistEntry)
  | acc, [] => .ok acc
  | acc, vb :: rest =>
    match entriesFold acc vb.value with
    | .ok acc2 => blocksFold acc2 rest
    | .error part => .error part

/-- Loop over the response's series (app.py lines 68-80) under the enclosing
`try` (lines 66-82): any raise inside the loop is caught and the history
gathered so far is returned. -/
def seriesFold : List HistEntry → List TimeSeries → List HistEntry
  | acc, [] => acc
  | acc, s :: rest =>
    match dvCode s.variableCode with
    | .error _ => acc
    | .ok code =>
      if code = some "00065" then
        match blocksFold acc s.values with
        | .ok acc2 => seriesFold acc2 rest
        | .error part => part
      else seriesFold acc rest

/-- Embedding of `fetch_30d_daily` (app.py lines 56-84).  A transport-level
failure (lines 60-62, outside the `try`) raises out of the function; a
well-shaped body yields the accumulated history. -/
def fetch_30d_daily : Fetch GageResponse → FetchResult (List HistEntry)
  | .fail => .raised
  | .ok resp => .ok (seriesFold [] resp.timeSeries)

/-- Boolean test of whether `fetch_30d_daily` treats a series as the
gage-height series: its `dvCode` is read without raising and equals 00065. -/
def matches30d (s : TimeSeries) : Bool :=
  match dvCode s.variableCode with
  | .ok (some c) => c == "00065"
  | _ => false

theorem foldl_stepCurrent_nomatch (ts : List TimeSeries) (st : Option ℚ × Option String)
    (h : ∀ s ∈ ts, ivCode s.variableCode ≠ some "00065") :
    ts.foldl stepCurrent st = st := by
  induction ts generalizing st with
  | nil => rfl
  | cons s rest ih =>
    rw [List.foldl_cons]
    have hs : stepCurrent st s = st := by
      simp [stepCurrent, h s (by simp)]
    rw [hs]
    exact ih st (fun x hx => h x (List.mem_cons_of_mem _ hx))

theorem seriesFold_nomatch (ts : List TimeSeries)
    (h : ∀ s ∈ ts, matches30d s = false) :
    seriesFold [] ts = [] := by
  induction ts with
  | nil => rfl
  | cons s rest ih =>
    have hs := h s (by simp)
    cases hdv : dvCode s.variableCode with
    | error u => simp [seriesFold, hdv]
    | ok code =>
      have hc : ¬ code = some "00065" := by
        intro hc
        rw [matches30d, hdv, hc] at hs
        simp at hs
      simp only [seriesFold, hdv, hc, if_false]
      exact ih (fun x hx => h x (List.mem_cons_of_mem _ hx))

/-- Counterexample to C2: on transport failure (likewise a non-2xx response or
a JSON parse failure) both fetchers raise to their caller instead of yielding
(absent, absent) / the empty sequence. -/
theorem fetch_transport_failure_counterexample :
    fetch_current_gage Fetch.fail = FetchResult.raised ∧
    fetch_30d_daily Fetch.fail = FetchResult.raised ∧
    (FetchResult.raised ≠ FetchResult.ok ((none : Option ℚ), (none : Option String))) ∧
    (FetchResult.raised ≠ FetchResult.ok ([] : List HistEntry)) :=
  ⟨rfl, rfl, by decide, by decide⟩

/-- C2 (amended): when a response is received and decoded but no series carries
the gage-height variable code 00065, `fetch_current_gage` returns
(absent, absent) and `fetch_30d_daily` returns the empty sequence; a transport
failure, non-2xx response, or undecodable body instead raises out of both
fetchers (the exception is absorbed one level up, in `api_stations`). -/
theorem fetch_no_variable_code_contract :
    (∀ resp : GageResponse,
      (∀ s ∈ resp.timeSeries, ivCode s.variableCode ≠ some "00065") →
      fetch_current_gage (.ok resp) = .ok (none, none)) ∧
    (∀ resp : GageResponse,
      (∀ s ∈ resp.timeSeries, matches30d s = false) →
      fetch_30d_daily (.ok resp) = .ok []) ∧
    fetch_current_gage Fetch.fail = .raised ∧
    fetch_30d_daily Fetch.fail = .raised := by
  refine ⟨?_, ?_, rfl, rfl⟩
  · intro resp h
    simp only [fetch_current_gage]
    rw [foldl_stepCurrent_nomatch resp.timeSeries (none, none) h]
  · intro resp h
    simp only [fetch_30d_daily]
    rw [seriesFold_nomatch resp.timeSeries h]

/-- Concrete response whose single series carries variable code 00060 (stream
flow), not the gage-height code 00065. -/
def respNo65 : GageResponse :=
  ⟨[⟨some [⟨some "00060"⟩], [⟨[⟨.vnum 1, some "2024-01-01T00:00"⟩]⟩]⟩]⟩

/-- Witness for the amended C2, at a concrete response lacking code 00065. -/
theorem fetch_no_variable_code_contract_witness :
    ((∀ s ∈ respNo65.timeSeries, ivCode s.variableCode ≠ some "00065") ∧
      (∀ s ∈ respNo65.timeSeries, matches30d s = false)) ∧
    (fetch_current_gage (.ok respNo65) = .ok (none, none) ∧
      fetch_30d_daily (.ok respNo65) = .ok []) :=
  ⟨⟨by decide, by decide⟩,
    fetch_no_variable_code_contract.1 respNo65 (by decide),
    fetch_no_variable_code_contract.2.1 respNo65 (by decide)⟩

/-- Entries of one `"value"` list retained per the spec's words: every daily
entry is kept except those whose value is null or empty, each parsed value
paired with its truncated date. -/
def keptEntries (l : List DataPoint) : List HistEntry :=
  l.filterMap (fun e =>
    if isNullOrEmpty e.value then none
    else (pyFloat e.value).map (fun q => ⟨pyDate e.dateTime, q⟩))

/-- History that the spec's words describe: concatenation, over the series
tagged with variable code 00065, of the retained entries of every values
block. -/
def specHistory (resp : GageResponse) : List HistEntry :=
  ((resp.timeSeries.filter (fun s => matches30d s)).map
    (fun s => (s.values.map (fun vb => keptEntries vb.value)).flatten)).flatten

theorem isNullOrEmpty_vnull : isNullOrEmpty .vnull = true := rfl

theorem isNullOrEmpty_vempty : isNullOrEmpty .vempty = true := rfl

theorem isNullOrEmpty_vnum (q : ℚ) : isNullOrEmpty (.vnum q) = false := rfl

theorem pyFloat_vnum (q : ℚ) : pyFloat (.vnum q) = some q := rfl

theorem entriesFold_ok (l : List DataPoint) (acc : List HistEntry)
    (h : ∀ e ∈ l, e.value ≠ .vbad) :
    entriesFold acc l = .ok (acc ++ keptEntries l) := by
  induction l generalizing acc with
  | nil => simp [entriesFold, keptEntries]
  | cons e rest ih =>
    have he := h e (by simp)
    have hrest : ∀ x ∈ rest, x.value ≠ RawVal.vbad :=
      fun x hx => h x (List.mem_cons_of_mem _ hx)
    cases hv : e.value with
    | vnull =>
      simp only [entriesFold, keptEntries, List.filterMap_cons, hv, isNullOrEmpty_vnull,
        ite_true, eq_self_iff_true, if_true]
      simpa only [keptEntries] using ih acc hrest
    | vempty =>
      simp only [entriesFold, keptEntries, List.filterMap_cons, hv, isNullOrEmpty_vempty,
        ite_true, eq_self_iff_true, if_true]
      simpa only [keptEntries] using ih acc hrest
    | vnum q =>
      simp only [entriesFold, keptEntries, List.filterMap_cons, hv, isNullOrEmpty_vnum,
        pyFloat_vnum, Bool.false_eq_true, if_false, ite_false]
      rw [ih _ hrest]
      simp only [keptEntries]
      simp [List.append_assoc]
    | vbad => exact absurd hv he

theorem blocksFold_ok (bs : List ValuesBlock) (acc : List HistEntry)
    (h : ∀ vb ∈ bs, ∀ e ∈ vb.value, e.value ≠ .vbad) :
    blocksFold acc bs = .ok (acc ++ (bs.map (fun vb => keptEntries vb.value)).flatten) := by
  induction bs generalizing acc with
  | nil => simp [blocksFold]
  | cons vb rest ih =>
    simp only [blocksFold]
    rw [entriesFold_ok vb.value acc (h vb (by simp))]
    show blocksFold (acc ++ keptEntries vb.value) rest = _
    rw [ih _ (fun x hx e he => h x (List.mem_cons_of_mem _ hx) e he)]
    simp [List.append_assoc]

theorem seriesFold_ok (ts : List TimeSeries) (acc : List HistEntry)
    (hvc : ∀ s ∈ ts, s.variableCode ≠ some [])
    (hbad : ∀ s ∈ ts, matches30d s = true →
      ∀ vb ∈ s.values, ∀ e ∈ vb.value, e.value ≠ .vbad) :
    seriesFold acc ts
      = acc ++ ((ts.filter (fun s => matches30d s)).map
          (fun s => (s.values.map (fun vb => keptEntries vb.value)).flatten)).flatten := by
  induction ts generalizing acc with
  | nil => simp [seriesFold]
  | cons s rest ih =>
    have hvc' : ∀ x ∈ rest, x.variableCode ≠ some [] :=
      fun x hx => hvc x (List.mem_cons_of_mem _ hx)
    have hbad' : ∀ x ∈ rest, matches30d x = true →
        ∀ vb ∈ x.values, ∀ e ∈ vb.value, e.value ≠ RawVal.vbad :=
      fun x hx => hbad x (List.mem_cons_of_mem _ hx)
    cases hdv : dvCode s.variableCode with
    | error u =>
      exfalso
      cases hsc : s.variableCode with
      | none => rw [hsc] at hdv; exact Except.noConfusion hdv
      | some l =>
        cases l with
        | nil => exact hvc s (by simp) hsc
        | cons c cs => rw [hsc] at hdv; exact Except.noConfusion hdv
    | ok code =>
      by_cases hc : code = some "00065"
      · have hm : matches30d s = true := by
          rw [matches30d, hdv, hc]; rfl
        simp only [seriesFold, hdv, hc, if_true, eq_self_iff_true]
        rw [blocksFold_ok s.values acc (hbad s (by simp) hm)]
        show seriesFold (acc ++ (s.values.map (fun vb => keptEntries vb.value)).flatten) rest = _
        rw [ih _ hvc' hbad']
        simp [List.filter_cons, hm, List.append_assoc]
      · have hm : matches30d s = false := by
          rw [matches30d, hdv]
          cases code with
          | none => rfl
          | some c =>
            have : c ≠ "00065" := fun hcc => hc (by rw [hcc])
            simpa using this
        simp only [seriesFold, hdv, hc, if_false]
        rw [ih _ hvc' hbad']
        simp [List.filter_cons, hm]

/-- Concrete daily-values response whose matching series holds a parseable
value, then a non-empty non-numeric value (such as an ice-affected marker),
then another parseable value. -/
def respBadVal : GageResponse :=
  ⟨[⟨some [⟨some "00065"⟩],
     [⟨[⟨.vnum 1, some "2024-01-01T00:00:00"⟩,
        ⟨.vbad, some "2024-01-02T00:00:00"⟩,
        ⟨.vnum 2, some "2024-01-03T00:00:00"⟩]⟩]⟩]⟩

/-- Concrete daily-values response whose first series carries a present but
empty `variableCode` list and whose second series is 00065-tagged with one
parseable value. -/
def respEmptyVC : GageResponse :=
  ⟨[⟨some [], []⟩,
    ⟨some [⟨some "00065"⟩], [⟨[⟨.vnum 5, some "2024-03-01T00:00:00"⟩]⟩]⟩]⟩

/-- Counterexample to C6, exhibiting both raising paths of the traversal.  In
`respBadVal` the third entry's value is neither null nor empty, yet the
returned history drops it — the unparseable second value raises `ValueError`,
aborting the traversal with only the first entry kept.  In `respEmptyVC` every
value parses, yet the matching series' parseable entry is dropped — the first
series' empty `variableCode` list raises `IndexError` before the matching
series is reached. -/
theorem history_truncation_counterexample :
    (fetch_30d_daily (.ok respBadVal) = .ok [⟨"2024-01-01", 1⟩] ∧
      isNullOrEmpty (RawVal.vnum 2) = false ∧
      (⟨"2024-01-03", 2⟩ : HistEntry) ∉ ([⟨"2024-01-01", 1⟩] : List HistEntry)) ∧
    (fetch_30d_daily (.ok respEmptyVC) = .ok [] ∧
      (∀ s ∈ respEmptyVC.timeSeries, ∀ vb ∈ s.values, ∀ e ∈ vb.value,
        e.value ≠ .vbad ∧ isNullOrEmpty e.value = false) ∧
      matches30d ⟨some [⟨some "00065"⟩],
        [⟨[⟨.vnum 5, some "2024-03-01T00:00:00"⟩]⟩]⟩ = true) :=
  ⟨⟨by decide, rfl, by decide⟩, ⟨by decide, by decide, by decide⟩⟩

/-- C6 (amended): provided no series carries a present but empty
`variableCode` list (which raises `IndexError` at the `[0]` access) and every
value that `float` is actually applied to — the non-null non-empty values of
the 00065-tagged series — parses, `fetch_30d_daily` retains exactly the
entries of the series tagged 00065 whose value is neither null nor empty, in
order; either raise aborts the traversal and entries from that point on are
dropped. -/
theorem fetch_30d_retention :
    ∀ resp : GageResponse,
      (∀ s ∈ resp.timeSeries, s.variableCode ≠ some []) →
      (∀ s ∈ resp.timeSeries, matches30d s = true →
        ∀ vb ∈ s.values, ∀ e ∈ vb.value, e.value ≠ .vbad) →
      fetch_30d_daily (.ok resp) = .ok (specHistory resp) := by
  intro resp h1 h2
  simp only [fetch_30d_daily, specHistory]
  rw [seriesFold_ok resp.timeSeries [] h1 h2]
  simp

/-- Concrete response for the C6 witness: a matching series with one parseable,
one null and one empty value. -/
def respGood : GageResponse :=
  ⟨[⟨some [⟨some "00065"⟩],
     [⟨[⟨.vnum 3, some "2024-02-01T00:00:00"⟩, ⟨.vnull, none⟩,
        ⟨.vempty, some "2024-02-03T00:00:00"⟩]⟩]⟩]⟩

/-- Witness for the amended C6 at the concrete response `respGood`. -/
theorem fetch_30d_retention_witness :
    ((∀ s ∈ respGood.timeSeries, s.variableCode ≠ some []) ∧
      (∀ s ∈ respGood.timeSeries, matches30d s = true →
        ∀ vb ∈ s.values, ∀ e ∈ vb.value, e.value ≠ .vbad)) ∧
    fetch_30d_daily (.ok respGood) = .ok (specHistory respGood) :=
  ⟨⟨by decide, by decide⟩, fetch_30d_retention respGood (by decide) (by decide)⟩

/-- One element of the JSON list returned by `/api/stations` (app.py
lines 114-125). -/
structure StationOut where
  site : String
  name : String
  city : String
  lat : ℚ
  lon : ℚ
  gage_height_ft : Option ℚ
  time : Option String
  median_30d : Option ℚ
  history_30d : List HistEntry
  risk : String
deriving DecidableEq, Repr

/-- Embedding of `statistics.median` as called at app.py line 110 (only on
non-empty float lists): sort ascending; odd length takes the middle element,
even length averages the two middle elements. -/
def statMedian (l : List ℚ) : ℚ :=
  let s := l.mergeSort
  let n := s.length
  if n % 2 = 1 then s.getD (n / 2) 0
  else (s.getD (n / 2 - 1) 0 + s.getD (n / 2) 0) / 2

/-- One iteration of the loop of `api_stations` (app.py lines 103-125) for one
configured station.  The two `try`/`except` blocks absorb a raise from each
fetcher into `(None, None)` and `([], None)` respectively; the median is
computed only when the fetched history is non-empty (`if hist else None`). -/
def stationEntry (iv dv : String → Fetch GageResponse) (s : StationCfg) : StationOut :=
  let ct : Option ℚ × Option String :=
    match fetch_current_gage (iv s.site) with
    | .ok p => p
    | .raised => (none, none)
  let hm : List HistEntry × Option ℚ :=
    match fetch_30d_daily (dv s.site) with
    | .ok hist => (hist, if hist.isEmpty then none else some (statMedian (hist.map HistEntry.value)))
    | .raised => ([], none)
  { site := s.site, name := s.name, city := s.city, lat := s.lat, lon := s.lon,
    gage_height_ft := ct.1, time := ct.2, median_30d := hm.2, history_30d := hm.1,
    risk := risk_from_median ct.1 hm.2 }

/-- Embedding of `api_stations` (app.py lines 100-126), parameterized by the
per-site upstream responses of the instantaneous-value and daily-value
endpoints. -/
def api_stations (iv dv : String → Fetch GageResponse) : List StationOut :=
  STATIONS.map (stationEntry iv dv)

/-- C7: the station listing always has exactly one entry per configured
station, in configuration order; a station whose two upstream fetches both
fail still appears, with risk `"unknown"` and null reading fields. -/
theorem api_stations_stable_count (iv dv : String → Fetch GageResponse) :
    (api_stations iv dv).map StationOut.site = STATIONS.map StationCfg.site ∧
    (api_stations iv dv).length = STATIONS.length ∧
    ∀ (i : ℕ) (entry : StationOut), (api_stations iv dv)[i]? = some entry →
      ∃ s, STATIONS[i]? = some s ∧ entry.site = s.site ∧
        (iv s.site = .fail → dv s.site = .fail →
          entry.risk = "unknown" ∧ entry.gage_height_ft = none ∧ entry.time = none ∧
            entry.median_30d = none ∧ entry.history_30d = []) := by
  refine ⟨?_, ?_, ?_⟩
  · simp only [api_stations, List.map_map]
    apply List.map_congr_left
    intro s _
    rfl
  · simp [api_stations]
  · intro i entry h
    simp only [api_stations, List.getElem?_map] at h
    cases hs : STATIONS[i]? with
    | none => rw [hs] at h; exact Option.noConfusion h
    | some s =>
      rw [hs] at h
      refine ⟨s, rfl, ?_, ?_⟩
      · cases h; rfl
      · intro hiv hdv
        cases h
        simp [stationEntry, hiv, hdv, fetch_current_gage, fetch_30d_daily, risk_from_median]

/-- Witness for C7 with both upstream endpoints failing for every site. -/
theorem api_stations_stable_count_witness :
    ((api_stations (fun _ => .fail) (fun _ => .fail))[0]?
        = some (stationEntry (fun _ => .fail) (fun _ => .fail)
            ⟨"01103500", "Charles River at Dover", 42.256209, -71.260055, "Dover"⟩)) ∧
    ∃ s, STATIONS[0]? = some s ∧
      (stationEntry (fun _ => .fail) (fun _ => .fail)
          ⟨"01103500", "Charles River at Dover", 42.256209, -71.260055, "Dover"⟩).site
        = s.site ∧
      ((fun _ : String => (Fetch.fail : Fetch GageResponse)) s.site = .fail →
        (fun _ : String => (Fetch.fail : Fetch GageResponse)) s.site = .fail →
        (stationEntry (fun _ => .fail) (fun _ => .fail)
            ⟨"01103500", "Charles River at Dover", 42.256209, -71.260055, "Dover"⟩).risk
            = "unknown" ∧
          (stationEntry (fun _ => .fail) (fun _ => .fail)
              ⟨"01103500", "Charles River at Dover", 42.256209, -71.260055, "Dover"⟩).gage_height_ft
            = none ∧
          (stationEntry (fun _ => .fail) (fun _ => .fail)
              ⟨"01103500", "Charles River at Dover", 42.256209, -71.260055, "Dover"⟩).time
            = none ∧
          (stationEntry (fun _ => .fail) (fun _ => .fail)
              ⟨"01103500", "Charles River at Dover", 42.256209, -71.260055, "Dover"⟩).median_30d
            = none ∧
          (stationEntry (fun _ => .fail) (fun _ => .fail)
              ⟨"01103500", "Charles River at Dover", 42.256209, -71.260055, "Dover"⟩).history_30d
            = []) :=
  ⟨rfl,
    (api_stations_stable_count (fun _ => .fail) (fun _ => .fail)).2.2 0
      (stationEntry (fun _ => .fail) (fun _ => .fail)
        ⟨"01103500", "Charles River at Dover", 42.256209, -71.260055, "Dover"⟩) rfl⟩

/-- C8: in every station entry, the median field is absent exactly when the
history is empty (never zero, and totality rules out an exception), and over a
non-empty history it is the statistical median: the middle element of an
ascending sorted permutation of the values, or the mean of the two middle
elements for even length. -/
theorem api_stations_median (iv dv : String → Fetch GageResponse) :
    ∀ entry ∈ api_stations iv dv,
      (entry.history_30d = [] → entry.median_30d = none) ∧
      (entry.history_30d ≠ [] →
        ∃ sorted : List ℚ, sorted.Perm (entry.history_30d.map HistEntry.value) ∧
          List.Sorted (· ≤ ·) sorted ∧
          entry.median_30d
            = some (if sorted.length % 2 = 1 then sorted.getD (sorted.length / 2) 0
                else (sorted.getD (sorted.length / 2 - 1) 0
                  + sorted.getD (sorted.length / 2) 0) / 2)) := by
  intro entry he
  simp only [api_stations, List.mem_map] at he
  obtain ⟨s, _, rfl⟩ := he
  cases hdv : fetch_30d_daily (dv s.site) with
  | raised =>
    constructor
    · intro _
      simp [stationEntry, hdv]
    · intro hne
      exfalso
      apply hne
      simp [stationEntry, hdv]
  | ok hist =>
    cases hist with
    | nil =>
      constructor
      · intro _
        simp [stationEntry, hdv]
      · intro hne
        exfalso
        apply hne
        simp [stationEntry, hdv]
    | cons a t =>
      constructor
      · intro hempty
        exfalso
        have : (stationEntry iv dv s).history_30d = a :: t := by
          simp [stationEntry, hdv]
        rw [this] at hempty
        exact List.noConfusion hempty
      · intro _
        have hh : (stationEntry iv dv s).history_30d = a :: t := by
          simp [stationEntry, hdv]
        have hmed : (stationEntry iv dv s).median_30d
            = some (statMedian ((a :: t).map HistEntry.value)) := by
          simp [stationEntry, hdv]
        refine ⟨((a :: t).map HistEntry.value).mergeSort, ?_, ?_, ?_⟩
        · rw [hh]
          exact List.mergeSort_perm _ _
        · exact List.sorted_mergeSort' _
        · rw [hmed]
          rfl

/-- Upstream daily-values responses used by the C8 witness: every site returns
one matching series with two parseable values 3 and 1. -/
def dvHist : String → Fetch GageResponse :=
  fun _ => .ok ⟨[⟨some [⟨some "00065"⟩],
    [⟨[⟨.vnum 3, some "2024-02-01T00:00:00"⟩, ⟨.vnum 1, some "2024-02-02T00:00:00"⟩]⟩]⟩]⟩

/-- Witness for C8 at a concrete two-value history. -/
theorem api_stations_median_witness :
    (stationEntry (fun _ => .fail) dvHist
        ⟨"01103500", "Charles River at Dover", 42.256209, -71.260055, "Dover"⟩
      ∈ api_stations (fun _ => .fail) dvHist) ∧
    ((stationEntry (fun _ => .fail) dvHist
        ⟨"01103500", "Charles River at Dover", 42.256209, -71.260055, "Dover"⟩).history_30d
      ≠ []) ∧
    (∃ sorted : List ℚ,
      sorted.Perm ((stationEntry (fun _ => .fail) dvHist
        ⟨"01103500", "Charles River at Dover", 42.256209, -71.260055, "Dover"⟩).history_30d.map
          HistEntry.value) ∧
      List.Sorted (· ≤ ·) sorted ∧
      (stationEntry (fun _ => .fail) dvHist
          ⟨"01103500", "Charles River at Dover", 42.256209, -71.260055, "Dover"⟩).median_30d
        = some (if sorted.length % 2 = 1 then sorted.getD (sorted.length / 2) 0
            else (sorted.getD (sorted.length / 2 - 1) 0
              + sorted.getD (sorted.length / 2) 0) / 2)) := by
  have hmem : stationEntry (fun _ => .fail) dvHist
      ⟨"01103500", "Charles River at Dover", 42.256209, -71.260055, "Dover"⟩
      ∈ api_stations (fun _ => .fail) dvHist :=
    List.mem_map_of_mem _ (by simp [STATIONS])
  have hne : (stationEntry (fun _ => .fail) dvHist
      ⟨"01103500", "Charles River at Dover", 42.256209, -71.260055, "Dover"⟩).history_30d
      ≠ [] := by decide
  exact ⟨hmem, hne,
    (api_stations_median (fun _ => .fail) dvHist _ hmem).2 hne⟩

/-- Degree-to-radian conversion `math.radians` used inside `dist_km`. -/
noncomputable def radiansR (x : ℝ) : ℝ := x * (Real.pi / 180)

/-- Embedding of the nested `dist_km` helper of `notifier_loop` (app.py
lines 160-163): spherical law-of-cosines great-circle distance with Earth
radius 6371 km over degree coordinates, in exact real arithmetic. -/
noncomputable def dist_km (lat1 lon1 lat2 lon2 : ℝ) : ℝ :=
  Real.arccos (Real.sin (radiansR lat1) * Real.sin (radiansR lat2) +
      Real.cos (radiansR lat1) * Real.cos (radiansR lat2) *
        Real.cos (radiansR (lon2 - lon1))) * 6371

/-- Python's builtin `min(seq, key=f)` as used at app.py line 166: scan left to
right keeping the current best and replacing it only on a strictly smaller key,
so the first minimizer wins ties; `none` on the empty list, where CPython
raises `ValueError`. -/
noncomputable def pyMin (f : StationOut → ℝ) : List StationOut → Option StationOut
  | [] => none
  | x :: xs => some (xs.foldl (fun best b => if f b < f best then b else best) x)

/-- Nearest-station selection of `notifier_loop` (app.py line 166):
`min(stations, key=lambda s: dist_km(s.lat, s.lon, v.lat, v.lon))`. -/
noncomputable def nearestStation (stations : List StationOut) (vlat vlon : ℚ) :
    Option StationOut :=
  pyMin (fun s => dist_km (s.lat : ℝ) (s.lon : ℝ) (vlat : ℝ) (vlon : ℝ)) stations

theorem pyMin_foldl_spec (f : StationOut → ℝ) (x : StationOut) (xs : List StationOut) :
    xs.foldl (fun best b => if f b < f best then b else best) x ∈ x :: xs ∧
    f (xs.foldl (fun best b => if f b < f best then b else best) x) ≤ f x ∧
    ∀ t ∈ xs, f (xs.foldl (fun best b => if f b < f best then b else best) x) ≤ f t := by
  induction xs generalizing x with
  | nil => exact ⟨by simp, le_refl _, by simp⟩
  | cons b xs ih =>
    rw [List.foldl_cons]
    by_cases hb : f b < f x
    · rw [if_pos hb]
      obtain ⟨hmem, hle, hall⟩ := ih b
      refine ⟨List.mem_cons_of_mem x hmem, hle.trans hb.le, ?_⟩
      intro t ht
      rcases List.mem_cons.mp ht with rfl | ht'
      · exact hle
      · exact hall t ht'
    · rw [if_neg hb]
      obtain ⟨hmem, hle, hall⟩ := ih x
      refine ⟨?_, hle, ?_⟩
      · rcases List.mem_cons.mp hmem with h | h
        · rw [h]; exact List.mem_cons_self x (b :: xs)
        · exact List.mem_cons_of_mem x (List.mem_cons_of_mem b h)
      · intro t ht
        rcases List.mem_cons.mp ht with rfl | ht'
        · exact hle.trans (le_of_not_lt hb)
        · exact hall t ht'

theorem nearestStation_mem {stations : List StationOut} {vlat vlon : ℚ} {s : StationOut}
    (h : nearestStation stations vlat vlon = some s) : s ∈ stations := by
  cases stations with
  | nil => exact Option.noConfusion h
  | cons x xs =>
    have hx := Option.some.inj h
    rw [← hx]
    exact (pyMin_foldl_spec _ x xs).1

/-- Concrete station listing entry (the Dover station after failed fetches)
used by the C5 and C4 witnesses. -/
def st0 : StationOut :=
  ⟨"01103500", "Charles River at Dover", "Dover", 42.256209, -71.260055,
    none, none, none, [], "unknown"⟩

/-- C5: over a non-empty station list the notifier's nearest-station selection
returns a member of the list minimizing the spherical law-of-cosines distance
(Earth radius 6371 km, degree inputs) to the venue; over a singleton list it
returns that station regardless of venue coordinates. -/
theorem nearestStation_minimizes :
    (∀ (s : StationOut) (vlat vlon : ℚ), nearestStation [s] vlat vlon = some s) ∧
    (∀ (stations : List StationOut) (vlat vlon : ℚ), stations ≠ [] →
      ∃ s, nearestStation stations vlat vlon = some s ∧ s ∈ stations ∧
        ∀ t ∈ stations,
          dist_km (s.lat : ℝ) (s.lon : ℝ) (vlat : ℝ) (vlon : ℝ)
            ≤ dist_km (t.lat : ℝ) (t.lon : ℝ) (vlat : ℝ) (vlon : ℝ)) := by
  constructor
  · intro s vlat vlon
    rfl
  · intro stations vlat vlon hne
    match stations, hne with
    | x :: xs, _ =>
      obtain ⟨hmem, hle, hall⟩ :=
        pyMin_foldl_spec (fun s => dist_km (s.lat : ℝ) (s.lon : ℝ) (vlat : ℝ) (vlon : ℝ)) x xs
      refine ⟨_, rfl, hmem, ?_⟩
      intro t ht
      rcases List.mem_cons.mp ht with rfl | ht'
      · exact hle
      · exact hall t ht'

/-- Witness for C5: a singleton station list is non-empty, and the selected
station is a minimizing member. -/
theorem nearestStation_minimizes_witness :
    ([st0] ≠ []) ∧
    (∃ s, nearestStation [st0] 0 0 = some s ∧ s ∈ [st0] ∧
      ∀ t ∈ [st0],
        dist_km (s.lat : ℝ) (s.lon : ℝ) ((0 : ℚ) : ℝ) ((0 : ℚ) : ℝ)
          ≤ dist_km (t.lat : ℝ) (t.lon : ℝ) ((0 : ℚ) : ℝ) ((0 : ℚ) : ℝ)) :=
  ⟨by simp, nearestStation_minimizes.2 [st0] 0 0 (by simp)⟩

/-- One notification event, the data printed at app.py line 172. -/
structure Notification where
  venueId : String
  venueName : String
  risk : String
  subscriberCount : Nat
deriving DecidableEq, Repr

/-- Per-venue body of the notifier loop (app.py lines 164-172): select the
nearest station and emit an event iff its risk is medium or high and the
venue's subscriber list is non-empty. -/
noncomputable def venueNotify (stations : List StationOut) (subs : Registry) (v : VenueCfg) :
    Option Notification :=
  match nearestStation stations v.lat v.lon with
  | none => none
  | some nearest =>
    if nearest.risk = "medium" ∨ nearest.risk = "high" then
      let list := lookupSubs subs v.id
      if list.isEmpty then none
      else some ⟨v.id, v.name, nearest.risk, list.length⟩
    else none

/-- One cycle of `notifier_loop` (app.py lines 156-176), given the station
listing the cycle fetched and the current registry state: the notification
events emitted.  With an empty station list the first `min` call raises
`ValueError`, the cycle's `except` catches it, and no event is emitted. -/
noncomputable def notifier_cycle (stations : List StationOut) (subs : Registry) :
    List Notification :=
  if stations.isEmpty then []
  else VENUES.filterMap (venueNotify stations subs)

theorem venues_id_inj : ∀ a ∈ VENUES, ∀ b ∈ VENUES, a.id = b.id → a = b := by
  intro a ha b hb h
  simp only [VENUES, List.mem_cons, List.not_mem_nil, or_false] at ha hb
  rcases ha with rfl | rfl <;> rcases hb with rfl | rfl <;>
    first
      | rfl
      | (exfalso; exact absurd h (by decide))

/-- C4: in a cycle over a non-empty station listing, a notification for a
venue is emitted iff the venue's nearest station's risk is medium or high and
the venue has at least one subscriber; and when every station's risk is
unknown, no notification is emitted at all, whatever the subscriber lists. -/
theorem notifier_emission_iff :
    (∀ (stations : List StationOut) (subs : Registry) (v : VenueCfg),
      stations ≠ [] → v ∈ VENUES →
      ((∃ n ∈ notifier_cycle stations subs, n.venueId = v.id) ↔
        (∃ ns, nearestStation stations v.lat v.lon = some ns ∧
          (ns.risk = "medium" ∨ ns.risk = "high") ∧ lookupSubs subs v.id ≠ []))) ∧
    (∀ (stations : List StationOut) (subs : Registry),
      (∀ s ∈ stations, s.risk = "unknown") → notifier_cycle stations subs = []) := by
  constructor
  · intro stations subs v hne hv
    have hemp : stations.isEmpty = false := by simp [List.isEmpty_iff, hne]
    have hcyc : notifier_cycle stations subs
        = VENUES.filterMap (venueNotify stations subs) := by
      simp [notifier_cycle, hemp]
    constructor
    · rintro ⟨n, hn, hnv⟩
      rw [hcyc] at hn
      obtain ⟨a, ha, hva⟩ := List.mem_filterMap.mp hn
      cases hns : nearestStation stations a.lat a.lon with
      | none =>
        simp only [venueNotify, hns] at hva
        exact Option.noConfusion hva
      | some ns =>
        simp only [venueNotify, hns] at hva
        by_cases hc : ns.risk = "medium" ∨ ns.risk = "high"
        · rw [if_pos hc] at hva
          by_cases hl : (lookupSubs subs a.id).isEmpty = true
          · rw [if_pos hl] at hva
            exact Option.noConfusion hva
          · rw [if_neg hl] at hva
            have hn' : n = ⟨a.id, a.name, ns.risk, (lookupSubs subs a.id).length⟩ :=
              (Option.some.inj hva).symm
            have hid : a.id = v.id := by rw [← hnv, hn']
            have hav : a = v := venues_id_inj a ha v hv hid
            subst hav
            refine ⟨ns, hns, hc, ?_⟩
            simpa [List.isEmpty_iff] using hl
        · rw [if_neg hc] at hva
          exact Option.noConfusion hva
    · rintro ⟨ns, hns, hc, hl⟩
      refine ⟨⟨v.id, v.name, ns.risk, (lookupSubs subs v.id).length⟩, ?_, rfl⟩
      rw [hcyc]
      apply List.mem_filterMap.mpr
      refine ⟨v, hv, ?_⟩
      have hlf : (lookupSubs subs v.id).isEmpty = false := by
        simp [List.isEmpty_iff, hl]
      simp only [venueNotify, hns]
      rw [if_pos hc]
      simp [hlf]
  · intro stations subs hall
    cases stations with
    | nil => rfl
    | cons s0 rest =>
      have hemp : (s0 :: rest).isEmpty = false := rfl
      rw [notifier_cycle, hemp]
      simp only [Bool.false_eq_true, if_false]
      apply List.filterMap_eq_nil_iff.mpr
      intro a _
      cases hns : nearestStation (s0 :: rest) a.lat a.lon with
      | none => simp [venueNotify, hns]
      | some ns =>
        have hrisk : ns.risk = "unknown" := hall ns (nearestStation_mem hns)
        simp only [venueNotify, hns]
        rw [if_neg]
        rw [hrisk]
        simp

/-- Witness for C4: with a single station at unknown risk and the initial
registry, the cycle emits nothing. -/
theorem notifier_emission_iff_witness :
    (∀ s ∈ [st0], s.risk = "unknown") ∧
    notifier_cycle [st0] SUBSCRIPTIONS_init = [] :=
  ⟨by simp [st0], notifier_emission_iff.2 [st0] SUBSCRIPTIONS_init (by simp [st0])⟩

end FloodRisk
